import Mathlib

/-!
Shallow embedding of the counseling-chat core of the `on_maum` backend
(`app/services/chat_service.py`, `app/services/counselor_service.py`,
`app/services/scheduler_service.py`, `app/websocket/chat_manager.py`).

Conventions:
* identifiers (UUIDs in the source) are `Nat`;
* absolute timestamps are `Int` seconds; `scheduled_date` is a day number and
  times-of-day are seconds within the day, combined by `combineDT`
  (mirrors `datetime.combine`);
* durations follow `int(timedelta.total_seconds() / 60)`, i.e. truncated
  division by 60 (`Int.tdiv`);
* SQLAlchemy row mutation is modelled by mapping an update over the stored
  list keyed on `id`; `query(...).first()` is `List.find?`;
* a Python `raise ValueError(...)` rolled back by the caller is
  `Except.error`: an `Except.error` result leaves the durable state exactly
  as it was (the transactional reading of `db.rollback()` /
  exception-before-commit);
* best-effort notification side effects of booking/cancel/start/complete are
  swallowed by `try/except` in the source and are not modelled; only the
  scheduler's reminder notifications (which claims depend on) are kept in
  the state.
-/

namespace OnMaum

/-- Session lifecycle status, `chat_sessions.status`
(`'pending' | 'active' | 'completed' | 'cancelled'`). -/
inductive SessionStatus
  | pending
  | active
  | completed
  | cancelled
deriving DecidableEq, Repr

/-- Python string value of a status, as interpolated into error messages
(`f"... {session.status}"`). -/
def statusStr : SessionStatus → String
  | .pending => "pending"
  | .active => "active"
  | .completed => "completed"
  | .cancelled => "cancelled"

/-- Model of `ChatSession` (`app/models/chat_session.py`), restricted to the
fields the embedded operations read or write. -/
structure ChatSession where
  id : Nat
  user_id : Nat
  counselor_id : Nat
  time_slot_id : Option Nat
  status : SessionStatus
  scheduled_date : Int
  scheduled_start_time : Int
  scheduled_end_time : Int
  actual_start_time : Option Int
  actual_end_time : Option Int
  duration : Option Int
  category : Option String
  description : Option String
  counselor_notes : Option String
  updated_at : Option Int
deriving DecidableEq, Repr

/-- Model of `TimeSlot` (`app/models/time_slot.py`). -/
structure TimeSlot where
  id : Nat
  counselor_id : Nat
  date : Int
  start_time : Int
  end_time : Int
  is_available : Bool
  is_booked : Bool
  updated_at : Option Int
deriving DecidableEq, Repr

/-- A counselor `Staff` row joined with its `CounselorProfile`
(`get_counselor_by_id` always performs this join and filters
`role == "counselor"`; membership in this table stands for that role). -/
structure CounselorProfile where
  id : Nat
  is_active : Bool
  is_available : Bool
  total_sessions : Nat
deriving DecidableEq, Repr

/-- Model of `Message` (`app/models/message.py`). -/
structure Message where
  id : Nat
  session_id : Nat
  sender_id : Nat
  sender_type : String
  content : String
  created_at : Int
deriving DecidableEq, Repr

/-- Model of a `Notification` row, restricted to the fields the reminder logic uses. -/
structure Notification where
  user_id : Nat
  ntype : String
  session_id : Nat
deriving DecidableEq, Repr

/-- The durable store reachable through the SQLAlchemy session. -/
structure DB where
  sessions : List ChatSession
  slots : List TimeSlot
  counselors : List CounselorProfile
  messages : List Message
  notifications : List Notification
deriving DecidableEq, Repr

/-- Embeds `datetime.combine(date, time)`, at day/second granularity. -/
def combineDT (d t : Int) : Int := d * 86400 + t

/-- Python truthiness of an `Optional[str]` (`None` and `""` are falsy). -/
def pyTruthyStr : Option String → Bool
  | some s => !s.isEmpty
  | none => false

/-- Python `str.strip()` — drop leading and trailing whitespace — modelled on
the character list (equivalent to `String.trim`, but evaluates by
structural recursion). -/
def pyStrip (s : String) : String :=
  ⟨((s.data.dropWhile Char.isWhitespace).reverse.dropWhile Char.isWhitespace).reverse⟩

/-- Apply an update to every stored session whose id matches (SQLAlchemy row
mutation of the fetched session). -/
def updateSession (db : DB) (sid : Nat) (f : ChatSession → ChatSession) : DB :=
  { db with sessions := db.sessions.map (fun s => if s.id = sid then f s else s) }

/-! ## CounselorService (`app/services/counselor_service.py`) -/

/-- Embeds `CounselorService.get_counselor_by_id`: joins `Staff` with
`CounselorProfile`, filters `role == "counselor"` and `is_active == True`. -/
def get_counselor_by_id (db : DB) (counselor_id : Nat) : Option CounselorProfile :=
  db.counselors.find? (fun c => c.id == counselor_id && c.is_active)

/-- Embeds `CounselorService.book_time_slot` (lines 221-242). -/
def book_time_slot (db : DB) (slot_id : Nat) (now : Int) : Except String DB :=
  match db.slots.find? (fun t => t.id == slot_id) with
  | none => .error "Time slot not found"
  | some t =>
    if t.is_booked then .error "Time slot is already booked"
    else if !t.is_available then .error "Time slot is not available"
    else .ok { db with slots := db.slots.map (fun u =>
        if u.id = slot_id then { u with is_booked := true, updated_at := some now } else u) }

/-- Embeds `CounselorService.cancel_time_slot_booking` (lines 244-259). -/
def cancel_time_slot_booking (db : DB) (slot_id : Nat) (now : Int) : Except String DB :=
  match db.slots.find? (fun t => t.id == slot_id) with
  | none => .error "Time slot not found"
  | some _ => .ok { db with slots := db.slots.map (fun u =>
      if u.id = slot_id then { u with is_booked := false, updated_at := some now } else u) }

/-! ## ChatService (`app/services/chat_service.py`) -/

/-- Embeds `ChatService.get_chat_session_details` (lines 180-216): fetch by id, then
deny unless the given `user_id` / `counselor_id` matches; deny when neither
identity is supplied. -/
def get_chat_session_details (db : DB) (session_id : Nat)
    (user_id counselor_id : Option Nat) : Option ChatSession :=
  match db.sessions.find? (fun s => s.id == session_id) with
  | none => none
  | some s =>
    if user_id.any (fun u => s.user_id != u) then none
    else if counselor_id.any (fun c => s.counselor_id != c) then none
    else if user_id.isNone && counselor_id.isNone then none
    else some s

/-- Payload of `ChatSessionCreate` (`app/schemas/chat.py`). -/
structure ChatSessionCreate where
  counselor_id : Nat
  scheduled_date : Int
  start_time : Int
  end_time : Int
  concern_category : String
  description : String
  time_slot_id : Option Nat
deriving DecidableEq, Repr

/-- The `ChatSession(...)` constructed by `book_chat_session` (lines 128-139);
`newId` stands for the id assigned at `flush()`. -/
def mkBookedSession (user_id : Nat) (d : ChatSessionCreate) (newId : Nat) :
    ChatSession :=
  { id := newId
    user_id := user_id
    counselor_id := d.counselor_id
    time_slot_id := d.time_slot_id
    status := .pending
    scheduled_date := d.scheduled_date
    scheduled_start_time := d.start_time
    scheduled_end_time := d.end_time
    actual_start_time := none
    actual_end_time := none
    duration := none
    category := some d.concern_category
    description := some d.description
    counselor_notes := none
    updated_at := none }

/-- Embeds `ChatService.book_chat_session` (lines 88-178).  An `Except.error`
result models the exception paths, on which either nothing was flushed yet or
`db.rollback()` discards the flushed session, so the durable state is
unchanged.  The booking-confirmation notification call is wrapped in
`try/except` and never affects the booking; it is not modelled. -/
def book_chat_session (db : DB) (user_id : Nat) (d : ChatSessionCreate)
    (newId : Nat) (now : Int) : Except String DB :=
  match get_counselor_by_id db d.counselor_id with
  | none => .error "Counselor not found"
  | some c =>
    if !c.is_available then .error "Counselor is not available"
    else
      match d.time_slot_id with
      | none =>
        .ok { db with sessions := db.sessions ++ [mkBookedSession user_id d newId] }
      | some tid =>
        match db.slots.find? (fun t =>
            t.id == tid && t.counselor_id == d.counselor_id &&
            t.is_available && !t.is_booked) with
        | none => .error "Time slot not available"
        | some slot =>
          if slot.date ≠ d.scheduled_date ∨ slot.start_time ≠ d.start_time ∨
              slot.end_time ≠ d.end_time then
            .error "Scheduled time does not match time slot"
          else
            let db1 : DB :=
              { db with sessions := db.sessions ++ [mkBookedSession user_id d newId] }
            match book_time_slot db1 tid now with
            | .ok db2 => .ok db2
            | .error e => .error ("Failed to book time slot: " ++ e)

/-- Embeds `ChatService.cancel_chat_session` (lines 218-272).  Note: the status
guard rejects only `completed`/`cancelled`; the `cancel_time_slot_booking`
failure is swallowed (`except ... print`), and the cancellation
notification is best-effort and not modelled. -/
def cancel_chat_session (db : DB) (session_id : Nat)
    (user_id counselor_id : Option Nat) (cancel_reason : Option String)
    (now : Int) : Except String DB :=
  match get_chat_session_details db session_id user_id counselor_id with
  | none => .error "Session not found or access denied"
  | some s =>
    if s.status = .completed ∨ s.status = .cancelled then
      .error ("Cannot cancel session with status: " ++ statusStr s.status)
    else
      let db1 := updateSession db session_id (fun t =>
        { t with
          status := .cancelled
          updated_at := some now
          counselor_notes :=
            if pyTruthyStr cancel_reason then
              if pyTruthyStr t.counselor_notes then
                some (t.counselor_notes.getD "" ++ "\n\nCancellation reason: " ++
                  cancel_reason.getD "")
              else some ("Cancellation reason: " ++ cancel_reason.getD "")
            else t.counselor_notes })
      let db2 :=
        match s.time_slot_id with
        | none => db1
        | some tid =>
          match cancel_time_slot_booking db1 tid now with
          | .ok db' => db'
          | .error _ => db1
      .ok db2

/-- Embeds `ChatService.start_chat_session` (lines 274-312). -/
def start_chat_session (db : DB) (session_id counselor_id : Nat)
    (now : Int) : Except String DB :=
  match get_chat_session_details db session_id none (some counselor_id) with
  | none => .error "Session not found or access denied"
  | some s =>
    if s.status ≠ .pending then
      .error ("Cannot start session with status: " ++ statusStr s.status)
    else
      .ok (updateSession db session_id (fun t =>
        { t with status := .active, actual_start_time := some now, updated_at := some now }))

/-- Embeds `ChatService.complete_chat_session` (lines 314-365).  Duration is
computed only when `actual_start_time` is set; a truthy `counselor_notes`
argument *replaces* the stored notes (`session.counselor_notes = ...`);
the counselor's `total_sessions` is incremented. -/
def complete_chat_session (db : DB) (session_id counselor_id : Nat)
    (counselor_notes : Option String) (now : Int) : Except String DB :=
  match get_chat_session_details db session_id none (some counselor_id) with
  | none => .error "Session not found or access denied"
  | some s =>
    if s.status ≠ .active then
      .error ("Cannot complete session with status: " ++ statusStr s.status)
    else
      let dur : Option Int :=
        match s.actual_start_time with
        | some st => some (Int.tdiv (now - st) 60)
        | none => s.duration
      let db1 := updateSession db session_id (fun t =>
        { t with
          status := .completed
          actual_end_time := some now
          updated_at := some now
          duration := dur
          counselor_notes :=
            if pyTruthyStr counselor_notes then counselor_notes else t.counselor_notes })
      .ok { db1 with counselors := db1.counselors.map (fun c =>
        if c.id = s.counselor_id then { c with total_sessions := c.total_sessions + 1 } else c) }

/-- Embeds `ChatService.send_message` (lines 400-441): access check by sender kind,
then the lifecycle guard `status in ["active", "pending"]`, then the message
row is persisted.  No content validation happens here. -/
def send_message (db : DB) (session_id sender_id : Nat) (sender_type : String)
    (content : String) (msgId : Nat) (now : Int) : Except String (DB × Message) :=
  let sess :=
    if sender_type == "user" then
      get_chat_session_details db session_id (some sender_id) none
    else
      get_chat_session_details db session_id none (some sender_id)
  match sess with
  | none => .error "Session not found or access denied"
  | some s =>
    if s.status ≠ .active ∧ s.status ≠ .pending then
      .error ("Cannot send message to session with status: " ++ statusStr s.status)
    else
      let m : Message :=
        { id := msgId, session_id := session_id, sender_id := sender_id
          sender_type := sender_type, content := content, created_at := now }
      .ok ({ db with messages := db.messages ++ [m] }, m)

/-! ## NotificationService (reminder tracking)

`SchedulerService.check_session_reminders` calls
`NotificationService.has_session_reminder` and
`NotificationService.create_session_reminder_notification`; these methods are
absent from the repository's `app/services/notification_service.py` (only
their callers exist), so they are modelled from the spec. -/

/-- Modelled from the spec: `NotificationService.has_session_reminder` is
missing from the source; the spec requires the implementation to "track
'reminder already sent' per session to guarantee at-most-once delivery", so
this checks whether a session-reminder notification for this session and
user already exists. -/
def has_session_reminder (notifs : List Notification) (session_id user_id : Nat) : Bool :=
  notifs.any (fun n =>
    n.ntype == "session_reminder" && n.session_id == session_id && n.user_id == user_id)

/-- Modelled from the spec: `NotificationService.create_session_reminder_notification`
is missing from the source; per the spec's notification sink it records one
reminder notification for the session's user. -/
def create_session_reminder_notification (notifs : List Notification)
    (user_id session_id : Nat) : List Notification :=
  notifs ++ [{ user_id := user_id, ntype := "session_reminder", session_id := session_id }]

/-! ## SchedulerService (`app/services/scheduler_service.py`) -/

/-- The per-session body of the reminder loop
(`check_session_reminders`, lines 140-174): sessions whose start lies
between 9m30s and 10m30s from now get a reminder unless one was already
recorded.  The notifications list threads through the loop because each
creation is committed before the next session is examined. -/
def reminderStep (now : Int) (notifs : List Notification) (s : ChatSession) :
    List Notification :=
  let diff := combineDT s.scheduled_date s.scheduled_start_time - now
  if 570 ≤ diff ∧ diff ≤ 630 then
    if has_session_reminder notifs s.id s.user_id then notifs
    else create_session_reminder_notification notifs s.user_id s.id
  else notifs

/-- The query filter of `check_session_reminders` (lines 129-137): `pending`
sessions whose `scheduled_date` equals `(now + 10 minutes).date()`. -/
def reminderQueryFilter (now : Int) (s : ChatSession) : Bool :=
  s.status == SessionStatus.pending && s.scheduled_date == Int.fdiv (now + 600) 86400

/-- Embeds `SchedulerService.check_session_reminders` (lines 117-179). -/
def check_session_reminders (db : DB) (now : Int) : DB :=
  { db with notifications :=
      (db.sessions.filter (reminderQueryFilter now)).foldl (reminderStep now) db.notifications }

/-- The overdue test of the auto-cancel loop (`update_session_statuses`,
line 207): scheduled start more than 15 minutes in the past. -/
def overduePending (now : Int) (s : ChatSession) : Bool :=
  s.status == SessionStatus.pending &&
    combineDT s.scheduled_date s.scheduled_start_time + 900 < now

/-- The note written by auto-cancellation (line 210). -/
def autoCancelNote : String :=
  "Auto-cancelled: Session was not started within 15 minutes of scheduled time"

/-- Session mutation of the auto-cancel loop (lines 199-228). -/
def autoCancelSession (now : Int) (s : ChatSession) : ChatSession :=
  if overduePending now s then
    { s with status := .cancelled, counselor_notes := some autoCancelNote,
             updated_at := some now }
  else s

/-- The overrun test of the auto-complete loop (line 247): scheduled end more
than 30 minutes in the past. -/
def overrunActive (now : Int) (s : ChatSession) : Bool :=
  s.status == SessionStatus.active &&
    combineDT s.scheduled_date s.scheduled_end_time + 1800 < now

/-- Session mutation of the auto-complete loop (lines 239-267): synthetic end
time is scheduled end + 30 minutes, the auto-completion note is appended to
the existing notes and the result stripped, duration is computed only when
`actual_start_time` is set. -/
def autoCompleteSession (now : Int) (s : ChatSession) : ChatSession :=
  if overrunActive now s then
    let endT := combineDT s.scheduled_date s.scheduled_end_time + 1800
    { s with
      status := .completed
      actual_end_time := some endT
      counselor_notes := some (pyStrip (s.counselor_notes.getD "" ++
        "\n\nAuto-completed: Session exceeded scheduled end time by 30+ minutes"))
      updated_at := some now
      duration :=
        match s.actual_start_time with
        | some st => some (Int.tdiv (endT - st) 60)
        | none => s.duration }
  else s

/-- Embeds `SchedulerService.update_session_statuses` (lines 181-273): first pass
auto-cancels overdue pending sessions and frees their booked slots (lines
213-220); second pass auto-completes overrun active sessions (which never
touches slots). -/
def update_session_statuses (db : DB) (now : Int) : DB :=
  let releasedSlotIds : List Nat :=
    (db.sessions.filter (overduePending now)).filterMap (fun s => s.time_slot_id)
  { db with
    sessions := (db.sessions.map (autoCancelSession now)).map (autoCompleteSession now)
    slots := db.slots.map (fun t =>
      if releasedSlotIds.contains t.id then
        { t with is_booked := false, updated_at := some now }
      else t) }

/-! ## WebSocket layer (`app/websocket/chat_manager.py`)

Transport handles are `Nat`; an emitted protocol event records its target
handle.  Sends never fail in the embedding (the self-healing removal on
send failure is outside the claims). -/

/-- An outbound event, tagged with the handle it is sent to. -/
inductive WsEvent
  | sessionInfo (tgt : Nat) (status : SessionStatus)
  | userJoined (tgt : Nat) (who : Nat)
  | userLeft (tgt : Nat) (who : Nat)
  | newMessage (tgt : Nat) (m : Message)
  | typingIndicator (tgt : Nat) (who : Nat) (is_typing : Bool)
  | errorEvent (tgt : Nat) (msg : String)
  | closed (tgt : Nat) (code : Nat) (reason : String)
deriving DecidableEq, Repr

/-- The `connection_info` entry stored per websocket (`connect`, lines 38-43). -/
structure ConnInfo where
  session_id : Nat
  user_id : Nat
  user_type : String
deriving DecidableEq, Repr

/-- State of `ConnectionManager`: `active_connections` maps a session id to its
room (set of handles, modelled as a duplicate-free list), `connection_info`
maps a handle to its registration. -/
structure ConnectionManager where
  active_connections : List (Nat × List Nat)
  connection_info : List (Nat × ConnInfo)
deriving DecidableEq, Repr

/-- Association-list lookup (Python dict access). -/
def alookup {β : Type} (l : List (Nat × β)) (k : Nat) : Option β :=
  (l.find? (fun p => p.1 == k)).map (fun p => p.2)

/-- The room of a session, empty when absent. -/
def roomOf (cm : ConnectionManager) (sid : Nat) : List Nat :=
  (alookup cm.active_connections sid).getD []

/-- Embeds `ConnectionManager.broadcast_to_session` (lines 108-130): send `mk h` to
every handle `h` of the room except the excluded one; nothing when the
session has no room. -/
def broadcast_to_session (cm : ConnectionManager) (sid : Nat)
    (mk : Nat → WsEvent) (exclude : Option Nat) : List WsEvent :=
  match alookup cm.active_connections sid with
  | none => []
  | some room => (room.filter (fun h => !(exclude == some h))).map mk

/-- Embeds `ConnectionManager.connect` (lines 21-59): add the handle to the
session's room (set add), record its info, and announce `user_joined` to all
other members. -/
def wsConnect (cm : ConnectionManager) (ws sid uid : Nat) (utype : String) :
    ConnectionManager × List WsEvent :=
  let room := roomOf cm sid
  let room' := if room.contains ws then room else room ++ [ws]
  let ac :=
    if (alookup cm.active_connections sid).isSome then
      cm.active_connections.map (fun p => if p.1 = sid then (p.1, room') else p)
    else cm.active_connections ++ [(sid, room')]
  let cm' : ConnectionManager :=
    { active_connections := ac
      connection_info :=
        (cm.connection_info.filter (fun p => p.1 ≠ ws)) ++
          [(ws, { session_id := sid, user_id := uid, user_type := utype })] }
  (cm', broadcast_to_session cm' sid (fun h => .userJoined h uid) (some ws))

/-- Embeds `ConnectionManager.disconnect` (lines 61-99): no-op for an unknown
handle; otherwise remove the handle from its room, drop the room entry when
it becomes empty, delete the connection info, and announce `user_left` to
the room's remaining members (none when the room entry is gone). -/
def disconnect (cm : ConnectionManager) (ws : Nat) :
    ConnectionManager × List WsEvent :=
  match alookup cm.connection_info ws with
  | none => (cm, [])
  | some info =>
    let ac :=
      match alookup cm.active_connections info.session_id with
      | none => cm.active_connections
      | some room =>
        let room' := room.filter (fun h => h ≠ ws)
        if room'.isEmpty then
          cm.active_connections.filter (fun p => p.1 ≠ info.session_id)
        else
          cm.active_connections.map (fun p =>
            if p.1 = info.session_id then (p.1, room') else p)
    let cm' : ConnectionManager :=
      { active_connections := ac
        connection_info := cm.connection_info.filter (fun p => p.1 ≠ ws) }
    (cm', broadcast_to_session cm' info.session_id (fun h => .userLeft h info.user_id) none)

/-- The connect/authorize phase of `ChatWebSocketManager.handle_websocket`
(lines 175-220): resolve the session with the caller's identity in the role
named by `user_type`; close with code 4003 when access is denied, otherwise
register the connection and send `session_info` to the new handle. -/
def handle_websocket_connect (db : DB) (cm : ConnectionManager)
    (ws sid uid : Nat) (utype : String) : ConnectionManager × List WsEvent :=
  let sess :=
    if utype == "user" then get_chat_session_details db sid (some uid) none
    else get_chat_session_details db sid none (some uid)
  match sess with
  | none => (cm, [.closed ws 4003 "Access denied to session"])
  | some s =>
    let (cm1, joinEvents) := wsConnect cm ws sid uid utype
    (cm1, joinEvents ++ [.sessionInfo ws s.status])

/-- Embeds `ChatWebSocketManager.handle_chat_message` (lines 297-351): strip the
content; an empty result gets an error event to the sender only and changes
nothing; otherwise persist via `send_message` and broadcast `new_message`
to the whole room (sender included); a domain failure becomes an error
event to the sender only. -/
def handle_chat_message (db : DB) (cm : ConnectionManager)
    (ws sid uid : Nat) (utype : String) (content : String)
    (msgId : Nat) (now : Int) : DB × List WsEvent :=
  let c := pyStrip content
  if c.isEmpty then
    (db, [.errorEvent ws "Message content cannot be empty"])
  else
    match send_message db sid uid utype c msgId now with
    | .error e => (db, [.errorEvent ws ("Failed to send message: " ++ e)])
    | .ok (db', m) =>
      (db', broadcast_to_session cm sid (fun h => .newMessage h m) none)

/-! ## Helper lemmas -/

theorem get_cs_details_spec (db : DB) (sid : Nat) (uid cid : Option Nat)
    (s : ChatSession) (h : get_chat_session_details db sid uid cid = some s) :
    s ∈ db.sessions ∧ s.id = sid := by
  unfold get_chat_session_details at h
  cases hf : db.sessions.find? (fun t => t.id == sid) with
  | none => rw [hf] at h; cases h
  | some t =>
    rw [hf] at h
    dsimp only at h
    have ht := List.find?_some hf
    have hmem := List.mem_of_find?_eq_some hf
    simp only [beq_iff_eq] at ht
    by_cases h1 : uid.any (fun u => t.user_id != u) = true
    · rw [if_pos h1] at h; cases h
    · rw [if_neg h1] at h
      by_cases h2 : cid.any (fun c => t.counselor_id != c) = true
      · rw [if_pos h2] at h; cases h
      · rw [if_neg h2] at h
        by_cases h3 : (uid.isNone && cid.isNone) = true
        · rw [if_pos h3] at h; cases h
        · rw [if_neg h3] at h
          cases h
          exact ⟨hmem, ht⟩

theorem cancel_tsb_ok_sessions (db : DB) (tid : Nat) (now : Int) (db' : DB)
    (h : cancel_time_slot_booking db tid now = .ok db') : db'.sessions = db.sessions := by
  unfold cancel_time_slot_booking at h
  cases hf : db.slots.find? (fun t => t.id == tid) with
  | none => rw [hf] at h; cases h
  | some t =>
    rw [hf] at h
    cases h
    rfl

/-- A successful manual cancel sets `is_booked := false` on every stored
slot carrying the cancelled session's bound slot id. -/
theorem cancel_releases_slot_aux (db : DB) (sid : Nat) (uid cid : Option Nat)
    (reason : Option String) (now : Int) (s : ChatSession) (db' : DB) (tid : Nat)
    (hs : get_chat_session_details db sid uid cid = some s)
    (htid : s.time_slot_id = some tid)
    (hok : cancel_chat_session db sid uid cid reason now = Except.ok db') :
    ∀ t ∈ db'.slots, t.id = tid → t.is_booked = false := by
  intro t hmemt hid
  unfold cancel_chat_session at hok
  rw [hs] at hok
  dsimp only at hok
  by_cases hguard : s.status = SessionStatus.completed ∨ s.status = SessionStatus.cancelled
  · rw [if_pos hguard] at hok; cases hok
  · rw [if_neg hguard, htid] at hok
    dsimp only at hok
    cases hc : cancel_time_slot_booking
        (updateSession db sid (fun t =>
          { t with
            status := .cancelled
            updated_at := some now
            counselor_notes :=
              if pyTruthyStr reason then
                if pyTruthyStr t.counselor_notes then
                  some (t.counselor_notes.getD "" ++ "\n\nCancellation reason: " ++
                    reason.getD "")
                else some ("Cancellation reason: " ++ reason.getD "")
              else t.counselor_notes })) tid now with
    | ok dbx =>
      rw [hc] at hok
      cases hok
      unfold cancel_time_slot_booking at hc
      cases hf : (updateSession db sid _).slots.find? (fun t => t.id == tid) with
      | none => rw [hf] at hc; cases hc
      | some u =>
        rw [hf] at hc
        cases hc
        rw [List.mem_map] at hmemt
        obtain ⟨v, hv, hvt⟩ := hmemt
        by_cases hvid : v.id = tid
        · rw [if_pos hvid] at hvt; rw [← hvt]
        · rw [if_neg hvid] at hvt; rw [← hvt] at hid; exact absurd hid hvid
    | error e =>
      rw [hc] at hok
      cases hok
      unfold cancel_time_slot_booking at hc
      cases hf : (updateSession db sid _).slots.find? (fun t => t.id == tid) with
      | some u => rw [hf] at hc; cases hc
      | none =>
        rw [List.find?_eq_none] at hf
        have := hf t hmemt
        simp only [beq_iff_eq] at this
        exact absurd hid this

/-- Characterization of the store after a successful cancel: every stored
session with the cancelled id is switched to `cancelled`, with the
cancellation reason recorded per Python truthiness (appended after the
existing notes when both are non-empty); other sessions are untouched. -/
theorem cancel_ok_state (db : DB) (sid : Nat) (uid cid : Option Nat)
    (reason : Option String) (now : Int) (s : ChatSession) (db' : DB)
    (hs : get_chat_session_details db sid uid cid = some s)
    (hok : cancel_chat_session db sid uid cid reason now = Except.ok db') :
    db'.sessions = db.sessions.map (fun t =>
      if t.id = sid then
        { t with
          status := .cancelled
          updated_at := some now
          counselor_notes :=
            if pyTruthyStr reason then
              if pyTruthyStr t.counselor_notes then
                some (t.counselor_notes.getD "" ++ "\n\nCancellation reason: " ++
                  reason.getD "")
              else some ("Cancellation reason: " ++ reason.getD "")
            else t.counselor_notes }
      else t) := by
  unfold cancel_chat_session at hok
  rw [hs] at hok
  dsimp only at hok
  by_cases hguard : s.status = SessionStatus.completed ∨ s.status = SessionStatus.cancelled
  · rw [if_pos hguard] at hok; cases hok
  · rw [if_neg hguard] at hok
    cases hts : s.time_slot_id with
    | none =>
      simp only [hts] at hok
      cases hok
      rfl
    | some tid =>
      simp only [hts] at hok
      cases hc : cancel_time_slot_booking (updateSession db sid (fun t =>
          { t with
            status := .cancelled
            updated_at := some now
            counselor_notes :=
              if pyTruthyStr reason then
                if pyTruthyStr t.counselor_notes then
                  some (t.counselor_notes.getD "" ++ "\n\nCancellation reason: " ++
                    reason.getD "")
                else some ("Cancellation reason: " ++ reason.getD "")
              else t.counselor_notes })) tid now with
      | ok dbx =>
        rw [hc] at hok
        cases hok
        exact cancel_tsb_ok_sessions _ tid now _ hc
      | error e =>
        rw [hc] at hok
        cases hok
        rfl

/-! ## C1 -/

/-- A concrete store holding one `active` session (id 7, user 1, counselor 2)
bound to a booked slot (id 0), with existing counselor notes. -/
def exActiveSession : ChatSession :=
  { id := 7, user_id := 1, counselor_id := 2, time_slot_id := some 0
    status := .active, scheduled_date := 0, scheduled_start_time := 36000
    scheduled_end_time := 39600, actual_start_time := some 36000
    actual_end_time := none, duration := none, category := none
    description := none, counselor_notes := some "old", updated_at := none }

/-- The slot bound to `exActiveSession`, currently booked. -/
def exBookedSlot : TimeSlot :=
  { id := 0, counselor_id := 2, date := 0, start_time := 36000, end_time := 39600
    is_available := true, is_booked := true, updated_at := none }

/-- The counselor of the example sessions. -/
def exCounselor : CounselorProfile :=
  { id := 2, is_active := true, is_available := true, total_sessions := 4 }

/-- Store with the active session. -/
def exActiveDB : DB :=
  { sessions := [exActiveSession], slots := [exBookedSlot]
    counselors := [exCounselor], messages := [], notifications := [] }

/-- C1 counterexample: cancelling the `active` session 7 (by its user, with a
reason) does not fail — it succeeds and the session ends up `cancelled`, so
"the cancel operation always fails with InvalidTransition [from active]" is
false at this input. -/
theorem c1_cancel_active_counterexample :
    ∃ db', cancel_chat_session exActiveDB 7 (some 1) none (some "bye") 50000 =
        Except.ok db' ∧
      ∀ s ∈ db'.sessions, s.status = SessionStatus.cancelled := by
  refine ⟨_, rfl, ?_⟩
  decide

/-- C1 (amended): `cancel` is rejected with the invalid-status error exactly
from `completed`/`cancelled`; from `pending` *and also from `active`* it
succeeds: every stored session with that id becomes `cancelled`, the
cancellation reason is recorded in the notes per the code's truthiness rules
(appended after the existing notes when both are non-empty), and every
stored slot carrying the bound slot id has `is_booked` set to false. -/
theorem c1_cancel_guard (db : DB) (sid : Nat) (uid cid : Option Nat)
    (reason : Option String) (now : Int) (s : ChatSession)
    (hs : get_chat_session_details db sid uid cid = some s) :
    (s.status = .pending ∨ s.status = .active →
      ∃ db', cancel_chat_session db sid uid cid reason now = Except.ok db' ∧
        (∀ s' ∈ db'.sessions, s'.id = sid → s'.status = SessionStatus.cancelled) ∧
        (∃ s' ∈ db'.sessions, s'.id = sid ∧ s'.status = SessionStatus.cancelled ∧
          s'.counselor_notes =
            (if pyTruthyStr reason then
              if pyTruthyStr s.counselor_notes then
                some (s.counselor_notes.getD "" ++ "\n\nCancellation reason: " ++
                  reason.getD "")
              else some ("Cancellation reason: " ++ reason.getD "")
            else s.counselor_notes)) ∧
        (∀ tid, s.time_slot_id = some tid →
          ∀ t ∈ db'.slots, t.id = tid → t.is_booked = false)) ∧
    (s.status = .completed ∨ s.status = .cancelled →
      cancel_chat_session db sid uid cid reason now =
        Except.error ("Cannot cancel session with status: " ++ statusStr s.status)) := by
  obtain ⟨hmem, hid⟩ := get_cs_details_spec db sid uid cid s hs
  constructor
  · intro hst
    have hguard : ¬(s.status = .completed ∨ s.status = .cancelled) := by
      rcases hst with h | h <;> rw [h] <;> simp
    obtain ⟨db', hok⟩ : ∃ db',
        cancel_chat_session db sid uid cid reason now = Except.ok db' := by
      unfold cancel_chat_session
      rw [hs]
      dsimp only
      rw [if_neg hguard]
      exact ⟨_, rfl⟩
    refine ⟨db', hok, ?_, ?_, ?_⟩
    · intro s' hmem' hid'
      rw [cancel_ok_state db sid uid cid reason now s db' hs hok] at hmem'
      simp only [List.mem_map] at hmem'
      obtain ⟨t, _, ht⟩ := hmem'
      by_cases hts : t.id = sid
      · rw [if_pos hts] at ht; rw [← ht]
      · rw [if_neg hts] at ht; rw [← ht] at hid'; exact absurd hid' hts
    · rw [cancel_ok_state db sid uid cid reason now s db' hs hok]
      refine ⟨_, List.mem_map_of_mem _ hmem, ?_⟩
      rw [if_pos hid]
      exact ⟨hid, rfl, rfl⟩
    · intro tid htid
      exact cancel_releases_slot_aux db sid uid cid reason now s db' tid hs htid hok
  · intro hst
    unfold cancel_chat_session
    rw [hs]
    dsimp only
    rw [if_pos hst]

/-- Witness for `c1_cancel_guard` at the concrete active-session store:
cancelling the active session 7 with reason "bye" succeeds, appends the
reason to the existing notes "old", and releases slot 0. -/
theorem c1_cancel_guard_witness :
    ∃ db', cancel_chat_session exActiveDB 7 (some 1) none (some "bye") 50000 =
        Except.ok db' ∧
      (∀ s' ∈ db'.sessions, s'.id = 7 → s'.status = SessionStatus.cancelled) ∧
      (∃ s' ∈ db'.sessions, s'.id = 7 ∧ s'.status = SessionStatus.cancelled ∧
        s'.counselor_notes =
          (if pyTruthyStr (some "bye") then
            if pyTruthyStr exActiveSession.counselor_notes then
              some (exActiveSession.counselor_notes.getD "" ++
                "\n\nCancellation reason: " ++ (some "bye").getD "")
            else some ("Cancellation reason: " ++ (some "bye").getD "")
          else exActiveSession.counselor_notes)) ∧
      (∀ tid, exActiveSession.time_slot_id = some tid →
        ∀ t ∈ db'.slots, t.id = tid → t.is_booked = false) :=
  (c1_cancel_guard exActiveDB 7 (some 1) none (some "bye") 50000 exActiveSession
    (by decide)).1 (Or.inr (by decide))

/-! ## C4 -/

/-- C4 counterexample: completing the active session 7 — whose stored notes
are `some "old"` — with notes "Good progress" leaves `some "Good progress"`
as the entire notes value: the prior entry "old" is *not* preserved, so
"the supplied notes are appended to the existing counselor notes (prior
entries preserved)" is false at this input. -/
theorem c4_notes_overwrite_counterexample :
    ∃ db', complete_chat_session exActiveDB 7 2 (some "Good progress") 37920 =
        Except.ok db' ∧
      ∀ s ∈ db'.sessions, s.counselor_notes = some "Good progress" := by
  refine ⟨_, rfl, ?_⟩
  decide

/-- C4 (amended): from a status other than `active`, `complete` fails; from
`active` (with `actual_start_time` set and truthy notes) it succeeds, the
session becomes `completed` with `duration` the truncated number of minutes
from `actual_start_time` to now, the supplied notes *replace* the stored
notes, and the counselor's `total_sessions` is incremented by exactly 1. -/
theorem c4_complete_behavior (db : DB) (sid cid : Nat) (notes : Option String)
    (now : Int) (s : ChatSession)
    (hs : get_chat_session_details db sid none (some cid) = some s) :
    (s.status ≠ .active →
      complete_chat_session db sid cid notes now =
        Except.error ("Cannot complete session with status: " ++ statusStr s.status)) ∧
    (∀ st, s.status = .active → s.actual_start_time = some st →
      pyTruthyStr notes = true →
      ∃ db', complete_chat_session db sid cid notes now = Except.ok db' ∧
        (∃ s' ∈ db'.sessions, s'.id = sid ∧ s'.status = SessionStatus.completed ∧
          s'.duration = some (Int.tdiv (now - st) 60) ∧
          s'.counselor_notes = notes ∧ s'.actual_end_time = some now) ∧
        (∀ c ∈ db.counselors, c.id = s.counselor_id →
          ∃ c' ∈ db'.counselors, c'.id = c.id ∧
            c'.total_sessions = c.total_sessions + 1)) := by
  obtain ⟨hmem, hid⟩ := get_cs_details_spec db sid none (some cid) s hs
  constructor
  · intro hne
    unfold complete_chat_session
    rw [hs]
    dsimp only
    rw [if_pos hne]
  · intro st hact hstart htruthy
    unfold complete_chat_session
    rw [hs]
    dsimp only
    rw [if_neg (by rw [hact]; simp), hstart]
    refine ⟨_, rfl, ?_, ?_⟩
    · refine ⟨_, List.mem_map_of_mem _ hmem, ?_⟩
      rw [if_pos hid]
      refine ⟨hid, rfl, rfl, ?_, rfl⟩
      dsimp only
      rw [if_pos htruthy]
    · intro c hc hcid
      refine ⟨_, List.mem_map_of_mem _ hc, ?_⟩
      rw [if_pos hcid]
      exact ⟨rfl, rfl⟩

/-- Witness for `c4_complete_behavior`: the concrete active session, started
at 36000, completed at 37920 (32 minutes later) with notes "Good progress";
counselor 2's counter goes from 4 to 5. -/
theorem c4_complete_behavior_witness :
    ∃ db', complete_chat_session exActiveDB 7 2 (some "Good progress") 37920 =
        Except.ok db' ∧
      (∃ s' ∈ db'.sessions, s'.id = 7 ∧ s'.status = SessionStatus.completed ∧
        s'.duration = some (Int.tdiv (37920 - 36000) 60) ∧
        s'.counselor_notes = some "Good progress" ∧ s'.actual_end_time = some 37920) ∧
      (∀ c ∈ exActiveDB.counselors, c.id = exActiveSession.counselor_id →
        ∃ c' ∈ db'.counselors, c'.id = c.id ∧
          c'.total_sessions = c.total_sessions + 1) :=
  (c4_complete_behavior exActiveDB 7 2 (some "Good progress") 37920 exActiveSession
    (by decide)).2 36000 (by decide) (by decide) (by decide)

/-! ## C10 -/

/-- An active session whose `actual_start_time` (and `duration`) is null. -/
def exActiveNoStart : ChatSession :=
  { exActiveSession with actual_start_time := none }

/-- Store holding `exActiveNoStart`. -/
def exActiveNoStartDB : DB :=
  { exActiveDB with sessions := [exActiveNoStart] }

/-- C10: completing an `active` session whose `actual_start_time` is null
still succeeds: the session becomes `completed` with `actual_end_time = now`,
and `duration` stays null — no duration is computed. -/
theorem c10_complete_without_start (db : DB) (sid cid : Nat) (now : Int)
    (s : ChatSession)
    (hs : get_chat_session_details db sid none (some cid) = some s)
    (hact : s.status = .active) (hstart : s.actual_start_time = none)
    (hdur : s.duration = none) :
    ∃ db', complete_chat_session db sid cid none now = Except.ok db' ∧
      ∃ s' ∈ db'.sessions, s'.id = sid ∧ s'.status = SessionStatus.completed ∧
        s'.actual_end_time = some now ∧ s'.duration = none := by
  obtain ⟨hmem, hid⟩ := get_cs_details_spec db sid none (some cid) s hs
  unfold complete_chat_session
  rw [hs]
  dsimp only
  rw [if_neg (by rw [hact]; simp), hstart]
  refine ⟨_, rfl, _, List.mem_map_of_mem _ hmem, ?_⟩
  rw [if_pos hid]
  exact ⟨hid, rfl, rfl, hdur⟩

/-- Witness for `c10_complete_without_start` at the concrete store. -/
theorem c10_complete_without_start_witness :
    ∃ db', complete_chat_session exActiveNoStartDB 7 2 none 37920 = Except.ok db' ∧
      ∃ s' ∈ db'.sessions, s'.id = 7 ∧ s'.status = SessionStatus.completed ∧
        s'.actual_end_time = some 37920 ∧ s'.duration = none :=
  c10_complete_without_start exActiveNoStartDB 7 2 37920 exActiveNoStart
    (by decide) (by decide) (by decide) (by decide)

/-! ## C3 -/

/-- The slot of the examples in its initial, unbooked state. -/
def exFreeSlot : TimeSlot :=
  { exBookedSlot with is_booked := false }

/-- Store before booking: one free slot, one counselor, no sessions. -/
def exBookDB : DB :=
  { sessions := [], slots := [exFreeSlot], counselors := [exCounselor]
    messages := [], notifications := [] }

/-- Booking request for counselor 2 matching `exFreeSlot` exactly. -/
def exCreate : ChatSessionCreate :=
  { counselor_id := 2, scheduled_date := 0, start_time := 36000, end_time := 39600
    concern_category := "cat", description := "desc", time_slot_id := some 0 }

/-- C3 counterexample: book a session onto slot 0, start it, complete it —
the completed session is still bound to slot 0 and the slot's `is_booked` is
still `true`, so "`is_booked` is true iff the session's status is `pending`
or `active`" is false at this input (completion never releases the slot). -/
theorem c3_booked_iff_counterexample :
    ∃ db1 db2 db3,
      book_chat_session exBookDB 1 exCreate 5 100 = Except.ok db1 ∧
      start_chat_session db1 5 2 36000 = Except.ok db2 ∧
      complete_chat_session db2 5 2 none 37920 = Except.ok db3 ∧
      ∃ s ∈ db3.sessions, ∃ t ∈ db3.slots,
        s.time_slot_id = some t.id ∧ s.status = SessionStatus.completed ∧
          t.is_booked = true := by
  refine ⟨_, _, _, rfl, rfl, rfl, ?_⟩
  decide

/-- The scheduler's auto-cancel pass sets `is_booked := false` on every
stored slot carrying the bound slot id of an overdue pending session. -/
theorem update_statuses_releases_slot_aux (db : DB) (now : Int) (s : ChatSession)
    (tid : Nat) (hmem : s ∈ db.sessions) (hov : overduePending now s = true)
    (htid : s.time_slot_id = some tid) :
    ∀ t ∈ (update_session_statuses db now).slots, t.id = tid → t.is_booked = false := by
  intro t hmemt hid
  unfold update_session_statuses at hmemt
  dsimp only at hmemt
  rw [List.mem_map] at hmemt
  obtain ⟨u, hu, hut⟩ := hmemt
  have htidmem : tid ∈ (db.sessions.filter (overduePending now)).filterMap
      (fun s => s.time_slot_id) :=
    List.mem_filterMap.mpr ⟨s, List.mem_filter.mpr ⟨hmem, hov⟩, htid⟩
  by_cases hc : ((db.sessions.filter (overduePending now)).filterMap
      (fun s => s.time_slot_id)).contains u.id = true
  · rw [if_pos hc] at hut; rw [← hut]
  · rw [if_neg hc] at hut
    rw [← hut] at hid
    rw [hid] at hc
    exact absurd (List.elem_iff.mpr htidmem) hc

/-- C3 (amended): cancellation — manual (`cancel_chat_session`) or the
scheduler's auto-cancel — releases the bound slot (`is_booked := false`);
but completion does not, so `is_booked = true` does not imply the bound
session is `pending` or `active`. -/
theorem c3_cancel_releases_slot :
    (∀ db sid uid cid reason now s db' tid,
      get_chat_session_details db sid uid cid = some s →
      s.time_slot_id = some tid →
      cancel_chat_session db sid uid cid reason now = Except.ok db' →
      ∀ t ∈ db'.slots, t.id = tid → t.is_booked = false) ∧
    (∀ db now s tid, s ∈ db.sessions → overduePending now s = true →
      s.time_slot_id = some tid →
      ∀ t ∈ (update_session_statuses db now).slots, t.id = tid → t.is_booked = false) :=
  ⟨fun db sid uid cid reason now s db' tid hs htid hok =>
      cancel_releases_slot_aux db sid uid cid reason now s db' tid hs htid hok,
   fun db now s tid hmem hov htid =>
      update_statuses_releases_slot_aux db now s tid hmem hov htid⟩

/-- The concrete store after cancelling the active example session. -/
def exCancelResult : DB :=
  match cancel_chat_session exActiveDB 7 (some 1) none (some "bye") 50000 with
  | .ok d => d
  | .error _ => exActiveDB

/-- The pending twin of the active example session (same schedule, slot 0
still booked). -/
def exPendingSession : ChatSession :=
  { exActiveSession with status := .pending, actual_start_time := none }

/-- Store holding the pending session with its booked slot. -/
def exPendingDB : DB :=
  { exActiveDB with sessions := [exPendingSession] }

/-- Witness for `c3_cancel_releases_slot`: both the manual cancel of session
7 and the scheduler sweep at 36960 (16 minutes past the 09:00+36000s start)
leave slot 0 unbooked. -/
theorem c3_cancel_releases_slot_witness :
    (∀ t ∈ exCancelResult.slots, t.id = 0 → t.is_booked = false) ∧
    (∀ t ∈ (update_session_statuses exPendingDB 36960).slots, t.id = 0 →
      t.is_booked = false) :=
  ⟨c3_cancel_releases_slot.1 exActiveDB 7 (some 1) none (some "bye") 50000
      exActiveSession exCancelResult 0 (by decide) (by decide) rfl,
   c3_cancel_releases_slot.2 exPendingDB 36960 exPendingSession 0
      (by decide) (by decide) (by decide)⟩

/-! ## C7 -/

/-- C7: in an overdue sweep, every `pending` session whose scheduled start is
more than 15 minutes (900 s) in the past is auto-cancelled — status
`cancelled`, notes set to the auto-cancellation reason (which starts with
"Auto-cancelled"), bound slot released — while a pending session inside the
grace period is left completely untouched. -/
theorem c7_overdue_sweep (db : DB) (now : Int) (s : ChatSession)
    (hmem : s ∈ db.sessions) (hp : s.status = SessionStatus.pending) :
    (combineDT s.scheduled_date s.scheduled_start_time + 900 < now →
      (∃ s' ∈ (update_session_statuses db now).sessions, s'.id = s.id ∧
        s'.status = SessionStatus.cancelled ∧
        s'.counselor_notes = some autoCancelNote) ∧
      "Auto-cancelled".data.isPrefixOf autoCancelNote.data = true ∧
      (∀ tid, s.time_slot_id = some tid →
        ∀ t ∈ (update_session_statuses db now).slots, t.id = tid →
          t.is_booked = false)) ∧
    (¬combineDT s.scheduled_date s.scheduled_start_time + 900 < now →
      s ∈ (update_session_statuses db now).sessions) := by
  constructor
  · intro hlate
    have hov : overduePending now s = true := by
      unfold overduePending
      rw [hp]
      simp [hlate]
    have hcanc : autoCancelSession now s =
        { s with status := .cancelled, counselor_notes := some autoCancelNote,
                 updated_at := some now } := by
      unfold autoCancelSession
      rw [if_pos hov]
    have hnotrun : overrunActive now (autoCancelSession now s) = false := by
      rw [hcanc]
      unfold overrunActive
      simp
    have hcomp : autoCompleteSession now (autoCancelSession now s) =
        autoCancelSession now s := by
      unfold autoCompleteSession
      rw [hnotrun]
      simp
    refine ⟨⟨autoCompleteSession now (autoCancelSession now s), ?_, ?_⟩, by decide, ?_⟩
    · unfold update_session_statuses
      dsimp only
      exact List.mem_map_of_mem _ (List.mem_map_of_mem _ hmem)
    · rw [hcomp, hcanc]
      exact ⟨rfl, rfl, rfl⟩
    · intro tid htid
      exact update_statuses_releases_slot_aux db now s tid hmem hov htid
  · intro hontime
    have hov : overduePending now s = false := by
      unfold overduePending
      simp [hontime]
    have h1 : autoCancelSession now s = s := by
      unfold autoCancelSession
      rw [if_neg (by rw [hov]; simp)]
    have h2 : autoCompleteSession now s = s := by
      unfold autoCompleteSession
      rw [if_neg (by unfold overrunActive; rw [hp]; simp)]
    unfold update_session_statuses
    dsimp only
    have := List.mem_map_of_mem (autoCompleteSession now)
      (List.mem_map_of_mem (autoCancelSession now) hmem)
    rwa [h1, h2] at this

/-- Witness for `c7_overdue_sweep`: the pending session scheduled at 36000 s
is auto-cancelled by the sweep at 36960 (16 minutes late) with slot 0
released, and is untouched by the sweep at 36840 (14 minutes late). -/
theorem c7_overdue_sweep_witness :
    ((∃ s' ∈ (update_session_statuses exPendingDB 36960).sessions,
        s'.id = exPendingSession.id ∧ s'.status = SessionStatus.cancelled ∧
        s'.counselor_notes = some autoCancelNote) ∧
      "Auto-cancelled".data.isPrefixOf autoCancelNote.data = true ∧
      (∀ tid, exPendingSession.time_slot_id = some tid →
        ∀ t ∈ (update_session_statuses exPendingDB 36960).slots, t.id = tid →
          t.is_booked = false)) ∧
    exPendingSession ∈ (update_session_statuses exPendingDB 36840).sessions :=
  ⟨(c7_overdue_sweep exPendingDB 36960 exPendingSession (by decide) (by decide)).1
      (by decide),
   (c7_overdue_sweep exPendingDB 36840 exPendingSession (by decide) (by decide)).2
      (by decide)⟩

/-! ## C9 -/

theorem alookup_filter_self {β : Type} (l : List (Nat × β)) (k : Nat) :
    alookup (l.filter (fun p => p.1 ≠ k)) k = none := by
  induction l with
  | nil => rfl
  | cons p t ih =>
    by_cases h : p.1 = k
    · simp only [List.filter, h, decide_not, decide_True, Bool.not_true] at ih ⊢
      exact ih
    · simpa [List.filter, h, alookup, List.find?] using ih

theorem alookup_map_update {β : Type} (l : List (Nat × β)) (k : Nat) (v : β) :
    alookup (l.map (fun p => if p.1 = k then (p.1, v) else p)) k =
      (alookup l k).map (fun _ => v) := by
  induction l with
  | nil => rfl
  | cons p t ih =>
    have hb : ∀ q : Nat × β, (q.1 == k) = decide (q.1 = k) := by
      intro q
      by_cases h : q.1 = k <;> simp [h]
    by_cases h : p.1 = k
    · simp [alookup, List.find?, h]
    · simp [alookup, List.find?, hb, h] at ih ⊢
      exact ih

/-- Broadcasting with no excluded handle sends exactly one event
per current room member (the filter on a `none` exclusion keeps everyone). -/
theorem broadcast_events (ac : List (Nat × List Nat)) (ci : List (Nat × ConnInfo))
    (sid : Nat) (mk : Nat → WsEvent) :
    broadcast_to_session ⟨ac, ci⟩ sid mk none = ((alookup ac sid).getD []).map mk := by
  unfold broadcast_to_session
  cases h : alookup ac sid with
  | none => rfl
  | some room =>
    dsimp only
    congr 1
    exact List.filter_eq_self.mpr (fun a _ => rfl)

theorem disconnect_not_registered (cm : ConnectionManager) (ws : Nat)
    (h : alookup cm.connection_info ws = none) : disconnect cm ws = (cm, []) := by
  unfold disconnect
  rw [h]

/-- C9: `leave` is idempotent per handle.  (1) a second `disconnect` of the
same handle is a no-op: no state change and no events (in particular no
duplicate `user_left`).  (2) the first `disconnect` of a registered handle
deregisters it, removes it from every entry of its session's room, retains
no empty room (given none existed before), and emits `user_left` exactly to
the remaining members of the handle's room — one event per remaining member,
never to the departed handle. -/
theorem c9_idempotent_leave :
    (∀ cm ws, disconnect (disconnect cm ws).1 ws = ((disconnect cm ws).1, [])) ∧
    (∀ cm ws info, alookup cm.connection_info ws = some info →
      (∀ p ∈ cm.active_connections, p.2 ≠ []) →
      alookup (disconnect cm ws).1.connection_info ws = none ∧
      (∀ p ∈ (disconnect cm ws).1.active_connections,
        p.1 = info.session_id → ws ∉ p.2) ∧
      (∀ p ∈ (disconnect cm ws).1.active_connections, p.2 ≠ []) ∧
      (disconnect cm ws).2 =
        ((roomOf cm info.session_id).filter (fun h => h ≠ ws)).map
          (fun h => WsEvent.userLeft h info.user_id)) := by
  have hinfo : ∀ cm ws info, alookup cm.connection_info ws = some info →
      (disconnect cm ws).1.connection_info =
        cm.connection_info.filter (fun p => p.1 ≠ ws) := by
    intro cm ws info h
    unfold disconnect
    rw [h]
  constructor
  · intro cm ws
    cases hl : alookup cm.connection_info ws with
    | none =>
      rw [disconnect_not_registered cm ws hl]
      exact disconnect_not_registered cm ws hl
    | some info =>
      refine disconnect_not_registered _ ws ?_
      rw [hinfo cm ws info hl]
      exact alookup_filter_self _ ws
  · intro cm ws info hl hne
    refine ⟨?_, ?_, ?_, ?_⟩
    · rw [hinfo cm ws info hl]
      exact alookup_filter_self _ ws
    · intro p hp hpid
      have hac : (disconnect cm ws).1.active_connections =
          (match alookup cm.active_connections info.session_id with
            | none => cm.active_connections
            | some room =>
              let room' := room.filter (fun h => h ≠ ws)
              if room'.isEmpty then
                cm.active_connections.filter (fun p => p.1 ≠ info.session_id)
              else
                cm.active_connections.map (fun p =>
                  if p.1 = info.session_id then (p.1, room') else p)) := by
        unfold disconnect
        rw [hl]
      rw [hac] at hp
      cases hroom : alookup cm.active_connections info.session_id with
      | none =>
        rw [hroom] at hp
        dsimp only at hp
        unfold alookup at hroom
        rw [Option.map_eq_none'] at hroom
        rw [List.find?_eq_none] at hroom
        have := hroom p hp
        simp only [beq_iff_eq] at this
        exact absurd hpid this
      | some room =>
        rw [hroom] at hp
        dsimp only at hp
        by_cases hemp : (room.filter (fun h => h ≠ ws)).isEmpty = true
        · rw [if_pos hemp] at hp
          have := List.of_mem_filter hp
          simp only [decide_eq_true_eq] at this
          exact absurd hpid this
        · rw [if_neg hemp] at hp
          rw [List.mem_map] at hp
          obtain ⟨q, hq, hqp⟩ := hp
          intro hws
          by_cases hqid : q.1 = info.session_id
          · rw [if_pos hqid] at hqp
            rw [← hqp] at hws
            dsimp only at hws
            have := List.of_mem_filter hws
            simp only [decide_eq_true_eq] at this
            exact this rfl
          · rw [if_neg hqid] at hqp
            rw [← hqp] at hpid
            exact absurd hpid hqid
    · intro p hp
      have hac : (disconnect cm ws).1.active_connections =
          (match alookup cm.active_connections info.session_id with
            | none => cm.active_connections
            | some room =>
              let room' := room.filter (fun h => h ≠ ws)
              if room'.isEmpty then
                cm.active_connections.filter (fun p => p.1 ≠ info.session_id)
              else
                cm.active_connections.map (fun p =>
                  if p.1 = info.session_id then (p.1, room') else p)) := by
        unfold disconnect
        rw [hl]
      rw [hac] at hp
      cases hroom : alookup cm.active_connections info.session_id with
      | none =>
        rw [hroom] at hp
        exact hne p hp
      | some room =>
        rw [hroom] at hp
        dsimp only at hp
        by_cases hemp : (room.filter (fun h => h ≠ ws)).isEmpty = true
        · rw [if_pos hemp] at hp
          exact hne p (List.mem_of_mem_filter hp)
        · rw [if_neg hemp] at hp
          rw [List.mem_map] at hp
          obtain ⟨q, hq, hqp⟩ := hp
          by_cases hqid : q.1 = info.session_id
          · rw [if_pos hqid] at hqp
            intro hnil
            rw [← hqp] at hnil
            dsimp only at hnil
            rw [hnil] at hemp
            exact hemp rfl
          · rw [if_neg hqid] at hqp
            rw [← hqp]
            exact hne q hq
    · have hev : (disconnect cm ws).2 =
          broadcast_to_session
            { active_connections :=
                (match alookup cm.active_connections info.session_id with
                  | none => cm.active_connections
                  | some room =>
                    let room' := room.filter (fun h => h ≠ ws)
                    if room'.isEmpty then
                      cm.active_connections.filter (fun p => p.1 ≠ info.session_id)
                    else
                      cm.active_connections.map (fun p =>
                        if p.1 = info.session_id then (p.1, room') else p))
              connection_info := cm.connection_info.filter (fun p => p.1 ≠ ws) }
            info.session_id (fun h => WsEvent.userLeft h info.user_id) none := by
        unfold disconnect
        rw [hl]
      rw [hev, broadcast_events]
      cases hroom : alookup cm.active_connections info.session_id with
      | none =>
        simp [roomOf, hroom]
      | some room =>
        by_cases hemp : (room.filter (fun h => h ≠ ws)).isEmpty = true
        · simp only [hroom, hemp, if_true]
          have hfs := alookup_filter_self (β := List Nat)
            cm.active_connections info.session_id
          simp only [decide_not] at hfs hemp
          rw [List.isEmpty_iff, List.filter_eq_nil_iff] at hemp
          simp [roomOf, hroom, hfs]
          intro a ha
          have := hemp a ha
          simpa using this
        · simp only [hroom, hemp, if_false]
          simp [roomOf, hroom, alookup_map_update]

/-- The connection-manager state with user 1 (handle 100) and counselor 2
(handle 200) joined to session 7's room. -/
def exCM : ConnectionManager :=
  (wsConnect
    (wsConnect { active_connections := [], connection_info := [] } 100 7 1 "user").1
    200 7 2 "counselor").1

/-- Witness for `c9_idempotent_leave` at the two-member room: the second
leave of handle 100 is a no-op, and the first leave deregisters it, leaves
no empty room, and emits `user_left` exactly to handle 200. -/
theorem c9_idempotent_leave_witness :
    (disconnect (disconnect exCM 100).1 100 = ((disconnect exCM 100).1, [])) ∧
    (alookup (disconnect exCM 100).1.connection_info 100 = none ∧
      (∀ p ∈ (disconnect exCM 100).1.active_connections, p.1 = 7 → 100 ∉ p.2) ∧
      (∀ p ∈ (disconnect exCM 100).1.active_connections, p.2 ≠ []) ∧
      (disconnect exCM 100).2 =
        ((roomOf exCM 7).filter (fun h => h ≠ 100)).map
          (fun h => WsEvent.userLeft h 1)) :=
  ⟨c9_idempotent_leave.1 exCM 100,
   c9_idempotent_leave.2 exCM 100
     { session_id := 7, user_id := 1, user_type := "user" } (by decide) (by decide)⟩

/-! ## C6 -/

/-- C6: a connection attempt by an identity that is neither the session's
bound user nor its bound counselor (in whichever role the connection claims)
is closed with code 4003; the connection manager is unchanged — the handle
is never registered — and the only emitted event is the close: no
`session_info` is ever sent. -/
theorem c6_stranger_rejected (db : DB) (cm : ConnectionManager)
    (ws sid uid : Nat) (utype : String)
    (h : ∀ s ∈ db.sessions, s.id = sid → s.user_id ≠ uid ∧ s.counselor_id ≠ uid) :
    handle_websocket_connect db cm ws sid uid utype =
      (cm, [WsEvent.closed ws 4003 "Access denied to session"]) := by
  have huser : get_chat_session_details db sid (some uid) none = none := by
    unfold get_chat_session_details
    cases hf : db.sessions.find? (fun s => s.id == sid) with
    | none => rfl
    | some s =>
      have hid := List.find?_some hf
      simp only [beq_iff_eq] at hid
      have hne := (h s (List.mem_of_find?_eq_some hf) hid).1
      dsimp only
      rw [if_pos (by simp [Option.any, bne_iff_ne]; exact hne)]
  have hcouns : get_chat_session_details db sid none (some uid) = none := by
    unfold get_chat_session_details
    cases hf : db.sessions.find? (fun s => s.id == sid) with
    | none => rfl
    | some s =>
      have hid := List.find?_some hf
      simp only [beq_iff_eq] at hid
      have hne := (h s (List.mem_of_find?_eq_some hf) hid).2
      dsimp only
      rw [if_neg (by simp [Option.any])]
      rw [if_pos (by simp [Option.any, bne_iff_ne]; exact hne)]
  unfold handle_websocket_connect
  by_cases ht : (utype == "user") = true
  · rw [if_pos ht, huser]
  · rw [if_neg ht, hcouns]

/-- Witness for `c6_stranger_rejected`: identity 9 (neither user 1 nor
counselor 2 of session 7) connecting to session 7 is closed with 4003. -/
theorem c6_stranger_rejected_witness :
    handle_websocket_connect exActiveDB exCM 300 7 9 "user" =
      (exCM, [WsEvent.closed 300 4003 "Access denied to session"]) :=
  c6_stranger_rejected exActiveDB exCM 300 7 9 "user" (by decide)

/-! ## C5 -/

/-- If the first slot with the requested id also satisfies the rest of the
booking query's conditions, it is what the full query finds. -/
theorem find?_query (l : List TimeSlot) (tid cid : Nat) (t : TimeSlot)
    (h : l.find? (fun u => u.id == tid) = some t)
    (h2 : t.counselor_id = cid) (h3 : t.is_available = true)
    (h4 : t.is_booked = false) :
    l.find? (fun u => u.id == tid && u.counselor_id == cid &&
      u.is_available && !u.is_booked) = some t := by
  induction l with
  | nil => cases h
  | cons u rest ih =>
    by_cases hu : (u.id == tid) = true
    · simp only [List.find?, hu] at h
      cases h
      have hpred : (t.id == tid && t.counselor_id == cid &&
          t.is_available && !t.is_booked) = true := by
        simp [hu, h2, h3, h4]
      simp only [List.find?, hpred]
    · have hu' : (u.id == tid) = false := by
        revert hu
        cases u.id == tid <;> simp
      simp only [List.find?, hu'] at h
      simp only [List.find?, hu', Bool.false_and]
      exact ih h

/-- C5: with a valid, available counselor and a supplied `timeSlotId`, the
booking fails (and, `Except.error` carrying no state, persists nothing)
unless a slot with that id belongs to the counselor, is available, is
unbooked and matches the requested date/start/end exactly; when the slot
found by id satisfies all of these, booking succeeds, the new `pending`
session is persisted, and the slot is marked booked. -/
theorem c5_booking_slot_guard (db : DB) (uid : Nat) (d : ChatSessionCreate)
    (newId : Nat) (now : Int) (c : CounselorProfile) (tid : Nat)
    (hc : get_counselor_by_id db d.counselor_id = some c)
    (hav : c.is_available = true)
    (htid : d.time_slot_id = some tid) :
    ((∀ t ∈ db.slots, ¬(t.id = tid ∧ t.counselor_id = d.counselor_id ∧
        t.is_available = true ∧ t.is_booked = false ∧ t.date = d.scheduled_date ∧
        t.start_time = d.start_time ∧ t.end_time = d.end_time)) →
      ∃ e, book_chat_session db uid d newId now = Except.error e) ∧
    (∀ t, db.slots.find? (fun u => u.id == tid) = some t →
      t.counselor_id = d.counselor_id → t.is_available = true → t.is_booked = false →
      t.date = d.scheduled_date → t.start_time = d.start_time →
      t.end_time = d.end_time →
      ∃ db', book_chat_session db uid d newId now = Except.ok db' ∧
        mkBookedSession uid d newId ∈ db'.sessions ∧
        (mkBookedSession uid d newId).status = SessionStatus.pending ∧
        ∀ u ∈ db'.slots, u.id = tid → u.is_booked = true) := by
  constructor
  · intro hnone
    unfold book_chat_session
    rw [hc]
    dsimp only
    rw [if_neg (by rw [hav]; simp), htid]
    dsimp only
    cases hf : db.slots.find? (fun t => t.id == tid &&
        t.counselor_id == d.counselor_id && t.is_available && !t.is_booked) with
    | none => exact ⟨_, rfl⟩
    | some slot =>
      have hp := List.find?_some hf
      have hmem := List.mem_of_find?_eq_some hf
      simp only [Bool.and_eq_true, beq_iff_eq, Bool.not_eq_true'] at hp
      obtain ⟨⟨⟨hid, hcid⟩, hava⟩, hbk⟩ := hp
      have hmis : slot.date ≠ d.scheduled_date ∨ slot.start_time ≠ d.start_time ∨
          slot.end_time ≠ d.end_time := by
        by_contra hcon
        push_neg at hcon
        exact hnone slot hmem ⟨hid, hcid, hava, hbk, hcon.1, hcon.2.1, hcon.2.2⟩
      dsimp only
      rw [if_pos hmis]
      exact ⟨_, rfl⟩
  · intro t hfind hcid hava hbk hdate hstart hend
    unfold book_chat_session
    rw [hc]
    dsimp only
    rw [if_neg (by rw [hav]; simp), htid]
    dsimp only
    rw [find?_query db.slots tid d.counselor_id t hfind hcid hava hbk]
    dsimp only
    rw [if_neg (by push_neg; exact ⟨hdate, hstart, hend⟩)]
    have hbts : book_time_slot
        { db with sessions := db.sessions ++ [mkBookedSession uid d newId] } tid now =
        Except.ok { db with
          sessions := db.sessions ++ [mkBookedSession uid d newId]
          slots := db.slots.map (fun u =>
            if u.id = tid then { u with is_booked := true, updated_at := some now }
            else u) } := by
      unfold book_time_slot
      dsimp only
      rw [hfind]
      dsimp only
      rw [if_neg (by rw [hbk]; simp), if_neg (by rw [hava]; simp)]
    rw [hbts]
    refine ⟨_, rfl, ?_, rfl, ?_⟩
    · simp
    · intro u hu huid
      simp only [List.mem_map] at hu
      obtain ⟨v, hv, hvu⟩ := hu
      by_cases hvid : v.id = tid
      · rw [if_pos hvid] at hvu; rw [← hvu]
      · rw [if_neg hvid] at hvu; rw [← hvu] at huid; exact absurd huid hvid

/-- A booking request whose start time does not match slot 0. -/
def exCreateMismatch : ChatSessionCreate :=
  { exCreate with start_time := 37000 }

/-- Witness for `c5_booking_slot_guard`: the mismatched request fails; the
exact request creates the pending session 5 and books slot 0. -/
theorem c5_booking_slot_guard_witness :
    (∃ e, book_chat_session exBookDB 1 exCreateMismatch 5 100 = Except.error e) ∧
    (∃ db', book_chat_session exBookDB 1 exCreate 5 100 = Except.ok db' ∧
      mkBookedSession 1 exCreate 5 ∈ db'.sessions ∧
      (mkBookedSession 1 exCreate 5).status = SessionStatus.pending ∧
      ∀ u ∈ db'.slots, u.id = 0 → u.is_booked = true) :=
  ⟨(c5_booking_slot_guard exBookDB 1 exCreateMismatch 5 100 exCounselor 0
      (by decide) (by decide) (by decide)).1 (by decide),
   (c5_booking_slot_guard exBookDB 1 exCreate 5 100 exCounselor 0
      (by decide) (by decide) (by decide)).2 exFreeSlot (by decide) (by decide)
      (by decide) (by decide) (by decide) (by decide) (by decide)⟩

/-! ## C8 -/

/-- C8 counterexample: `send_message` — reached unvalidated from the REST
message endpoint — persists a message whose content `"   "` is
whitespace-only (its stripped form is empty), so "every persisted Message
has non-empty, non-whitespace-only content" is false at this input. -/
theorem c8_whitespace_message_counterexample :
    ∃ db' m, send_message exPendingDB 7 1 "user" "   " 50 1000 =
        Except.ok (db', m) ∧
      m ∈ db'.messages ∧ m.content = "   " ∧ (pyStrip "   ").isEmpty = true := by
  refine ⟨_, _, rfl, by decide, rfl, by decide⟩

/-- C8 (amended): the *websocket* `chat_message` handler rejects content
that strips to empty with an error event to the sender and no state change,
and every message persisted through `send_message` is created with the
owning session in `pending` or `active` status and appended to the message
log; `send_message` itself, however, performs no content validation. -/
theorem c8_message_content_guard :
    (∀ db cm ws sid uid utype content msgId now,
      (pyStrip content).isEmpty = true →
      handle_chat_message db cm ws sid uid utype content msgId now =
        (db, [WsEvent.errorEvent ws "Message content cannot be empty"])) ∧
    (∀ db sid sender stype content msgId now db' m,
      send_message db sid sender stype content msgId now = Except.ok (db', m) →
      ∃ s, (if stype == "user" then
            get_chat_session_details db sid (some sender) none
          else get_chat_session_details db sid none (some sender)) = some s ∧
        (s.status = SessionStatus.pending ∨ s.status = SessionStatus.active) ∧
        db'.messages = db.messages ++ [m] ∧ m.content = content) := by
  constructor
  · intro db cm ws sid uid utype content msgId now h
    unfold handle_chat_message
    dsimp only
    rw [if_pos h]
  · intro db sid sender stype content msgId now db' m hok
    unfold send_message at hok
    dsimp only at hok
    cases hsess : (if stype == "user" then
        get_chat_session_details db sid (some sender) none
      else get_chat_session_details db sid none (some sender)) with
    | none => rw [hsess] at hok; cases hok
    | some s =>
      rw [hsess] at hok
      dsimp only at hok
      by_cases hst : s.status ≠ SessionStatus.active ∧ s.status ≠ SessionStatus.pending
      · rw [if_pos hst] at hok; cases hok
      · rw [if_neg hst] at hok
        cases hok
        refine ⟨s, rfl, ?_, rfl, rfl⟩
        rcases not_and_or.mp hst with h | h
        · exact Or.inr (not_not.mp h)
        · exact Or.inl (not_not.mp h)

/-- The message persisted by the witness call below. -/
def exHelloMsg : Message :=
  { id := 52, session_id := 7, sender_id := 1, sender_type := "user"
    content := "hello", created_at := 1000 }

/-- Witness for `c8_message_content_guard`: a tab/space-only chat_message is
rejected with an error event and no state change, while "hello" sent on the
pending session 7 is appended to the message log. -/
theorem c8_message_content_guard_witness :
    (handle_chat_message exPendingDB exCM 100 7 1 "user" " \t " 51 1000 =
      (exPendingDB, [WsEvent.errorEvent 100 "Message content cannot be empty"])) ∧
    (∃ s, (if ("user" : String) == "user" then
          get_chat_session_details exPendingDB 7 (some 1) none
        else get_chat_session_details exPendingDB 7 none (some 1)) = some s ∧
      (s.status = SessionStatus.pending ∨ s.status = SessionStatus.active) ∧
      ({ exPendingDB with messages := exPendingDB.messages ++ [exHelloMsg] } : DB).messages =
        exPendingDB.messages ++ [exHelloMsg] ∧
      exHelloMsg.content = "hello") :=
  ⟨c8_message_content_guard.1 exPendingDB exCM 100 7 1 "user" " \t " 51 1000 (by decide),
   c8_message_content_guard.2 exPendingDB 7 1 "user" "hello" 52 1000
     { exPendingDB with messages := exPendingDB.messages ++ [exHelloMsg] }
     exHelloMsg rfl⟩

/-! ## C2 -/

/-- Whether a notification is the reminder for the given session and user. -/
def isReminderFor (session_id user_id : Nat) (n : Notification) : Bool :=
  n.ntype == "session_reminder" && n.session_id == session_id && n.user_id == user_id

/-- Number of reminder notifications recorded for a session/user pair. -/
def reminderCount (db : DB) (sid uid : Nat) : Nat :=
  db.notifications.countP (isReminderFor sid uid)

theorem has_iff_pos (notifs : List Notification) (sid uid : Nat) :
    has_session_reminder notifs sid uid = true ↔
      0 < notifs.countP (isReminderFor sid uid) := by
  unfold has_session_reminder isReminderFor
  rw [List.any_eq_true, List.countP_pos_iff]

/-- How one loop iteration changes the reminder count for a fixed key: it
adds exactly one when this session matches the key, lies in the tolerance
band, and no reminder exists yet; otherwise it changes nothing. -/
theorem reminderStep_count (now : Int) (notifs : List Notification)
    (s : ChatSession) (sid uid : Nat) :
    (reminderStep now notifs s).countP (isReminderFor sid uid) =
      if s.id = sid ∧ s.user_id = uid ∧
          (570 ≤ combineDT s.scheduled_date s.scheduled_start_time - now ∧
            combineDT s.scheduled_date s.scheduled_start_time - now ≤ 630) ∧
          has_session_reminder notifs sid uid = false
      then notifs.countP (isReminderFor sid uid) + 1
      else notifs.countP (isReminderFor sid uid) := by
  unfold reminderStep
  dsimp only
  by_cases hband : 570 ≤ combineDT s.scheduled_date s.scheduled_start_time - now ∧
      combineDT s.scheduled_date s.scheduled_start_time - now ≤ 630
  · rw [if_pos hband]
    by_cases hh : has_session_reminder notifs s.id s.user_id = true
    · rw [if_pos hh]
      by_cases hkey : s.id = sid ∧ s.user_id = uid
      · rw [if_neg ?_]
        intro hcon
        rw [hkey.1, hkey.2] at hh
        rw [hcon.2.2.2] at hh
        cases hh
      · rw [if_neg (fun hcon => hkey ⟨hcon.1, hcon.2.1⟩)]
    · rw [if_neg hh]
      have hhf : has_session_reminder notifs s.id s.user_id = false := by
        revert hh
        cases has_session_reminder notifs s.id s.user_id <;> simp
      unfold create_session_reminder_notification
      rw [List.countP_append]
      by_cases hkey : s.id = sid ∧ s.user_id = uid
      · have hnew : isReminderFor sid uid
            { user_id := s.user_id, ntype := "session_reminder", session_id := s.id } =
            true := by
          unfold isReminderFor
          simp [hkey.1, hkey.2]
        rw [if_pos ⟨hkey.1, hkey.2, hband, hkey.2 ▸ hkey.1 ▸ hhf⟩]
        simp [List.countP_cons, hnew]
      · have hnew : isReminderFor sid uid
            { user_id := s.user_id, ntype := "session_reminder", session_id := s.id } =
            false := by
          unfold isReminderFor
          rcases not_and_or.mp hkey with h | h <;> simp [h]
        rw [if_neg (fun hcon => hkey ⟨hcon.1, hcon.2.1⟩)]
        simp [List.countP_cons, hnew]
  · rw [if_neg hband, if_neg (fun hcon => hband hcon.2.2.1)]

/-- The full loop of one reminder scan, for a fixed key: a positive count is
preserved unchanged; a zero count becomes 1 exactly when some processed
session matches the key inside the tolerance band. -/
theorem foldl_reminder_count (now : Int) (ss : List ChatSession)
    (notifs : List Notification) (sid uid : Nat) :
    (ss.foldl (reminderStep now) notifs).countP (isReminderFor sid uid) =
      if 0 < notifs.countP (isReminderFor sid uid) then
        notifs.countP (isReminderFor sid uid)
      else if ∃ s ∈ ss, s.id = sid ∧ s.user_id = uid ∧
          (570 ≤ combineDT s.scheduled_date s.scheduled_start_time - now ∧
            combineDT s.scheduled_date s.scheduled_start_time - now ≤ 630) then
        1
      else 0 := by
  induction ss generalizing notifs with
  | nil =>
    simp only [List.foldl_nil, List.not_mem_nil]
    by_cases h : 0 < notifs.countP (isReminderFor sid uid)
    · rw [if_pos h]
    · rw [if_neg h, if_neg (by simp)]
      omega
  | cons a t ih =>
    by_cases h0 : 0 < notifs.countP (isReminderFor sid uid)
    · have hh : has_session_reminder notifs sid uid = true := (has_iff_pos _ _ _).mpr h0
      have hstep : (reminderStep now notifs a).countP (isReminderFor sid uid) =
          notifs.countP (isReminderFor sid uid) := by
        rw [reminderStep_count,
          if_neg (fun hcon => by rw [hcon.2.2.2] at hh; cases hh)]
      rw [List.foldl_cons, ih, hstep, if_pos h0, if_pos h0]
    · have hh : has_session_reminder notifs sid uid = false := by
        rcases Bool.eq_false_or_eq_true (has_session_reminder notifs sid uid) with h | h
        · exact absurd ((has_iff_pos _ _ _).mp h) h0
        · exact h
      have hc0 : notifs.countP (isReminderFor sid uid) = 0 := by omega
      by_cases hkey : a.id = sid ∧ a.user_id = uid ∧
          (570 ≤ combineDT a.scheduled_date a.scheduled_start_time - now ∧
            combineDT a.scheduled_date a.scheduled_start_time - now ≤ 630)
      · have hstep : (reminderStep now notifs a).countP (isReminderFor sid uid) = 1 := by
          rw [reminderStep_count, if_pos ⟨hkey.1, hkey.2.1, hkey.2.2, hh⟩, hc0]
        rw [List.foldl_cons, ih, hstep, if_pos (by omega), if_neg h0,
          if_pos ⟨a, List.mem_cons_self a t, hkey⟩]
      · have hstep : (reminderStep now notifs a).countP (isReminderFor sid uid) =
            notifs.countP (isReminderFor sid uid) := by
          rw [reminderStep_count,
            if_neg (fun hcon => hkey ⟨hcon.1, hcon.2.1, hcon.2.2.1⟩)]
        rw [List.foldl_cons, ih, hstep, if_neg h0, if_neg h0]
        have hiff : (∃ s ∈ a :: t, s.id = sid ∧ s.user_id = uid ∧
            (570 ≤ combineDT s.scheduled_date s.scheduled_start_time - now ∧
              combineDT s.scheduled_date s.scheduled_start_time - now ≤ 630)) ↔
            (∃ s ∈ t, s.id = sid ∧ s.user_id = uid ∧
            (570 ≤ combineDT s.scheduled_date s.scheduled_start_time - now ∧
              combineDT s.scheduled_date s.scheduled_start_time - now ≤ 630)) := by
          constructor
          · rintro ⟨s, hs, hP⟩
            rcases List.mem_cons.mp hs with rfl | hsm
            · exact absurd hP hkey
            · exact ⟨s, hsm, hP⟩
          · rintro ⟨s, hs, hP⟩
            exact ⟨s, List.mem_cons_of_mem a hs, hP⟩
        simp only [hiff]

/-- One reminder scan never changes an already positive reminder count. -/
theorem scan_preserve (db : DB) (t : Int) (sid uid : Nat)
    (h : 0 < reminderCount db sid uid) :
    reminderCount (check_session_reminders db t) sid uid =
      reminderCount db sid uid := by
  unfold check_session_reminders reminderCount at *
  dsimp only
  rw [foldl_reminder_count, if_pos h]

/-- Any number of further scans never changes a positive reminder count. -/
theorem scanMany_preserve (ts : List Int) (db : DB) (sid uid : Nat)
    (h : 0 < reminderCount db sid uid) :
    reminderCount (ts.foldl check_session_reminders db) sid uid =
      reminderCount db sid uid := by
  induction ts generalizing db with
  | nil => rfl
  | cons a t ih =>
    rw [List.foldl_cons, ih (check_session_reminders db a)
      (by rw [scan_preserve db a sid uid h]; exact h)]
    exact scan_preserve db a sid uid h

/-- C2: for a pending session matching the reminder query (its scheduled
date equals the date 10 minutes ahead of the scan time) whose start lies in
the 9m30s–10m30s tolerance band, a scan at `t1` with no reminder yet
recorded produces exactly one reminder, and any sequence of further scans —
including immediately repeated ones — leaves exactly one: the
"reminder already sent" check gives at-most-once delivery. -/
theorem c2_at_most_one_reminder (db : DB) (s : ChatSession) (t1 : Int)
    (ts : List Int)
    (hmem : s ∈ db.sessions)
    (hq : reminderQueryFilter t1 s = true)
    (hband : 570 ≤ combineDT s.scheduled_date s.scheduled_start_time - t1 ∧
      combineDT s.scheduled_date s.scheduled_start_time - t1 ≤ 630)
    (h0 : reminderCount db s.id s.user_id = 0) :
    reminderCount (check_session_reminders db t1) s.id s.user_id = 1 ∧
    reminderCount (ts.foldl check_session_reminders (check_session_reminders db t1))
      s.id s.user_id = 1 := by
  have h1 : reminderCount (check_session_reminders db t1) s.id s.user_id = 1 := by
    unfold check_session_reminders reminderCount at *
    dsimp only
    rw [foldl_reminder_count, if_neg (by omega),
      if_pos ⟨s, List.mem_filter.mpr ⟨hmem, hq⟩, rfl, rfl, hband⟩]
  refine ⟨h1, ?_⟩
  rw [scanMany_preserve ts (check_session_reminders db t1) s.id s.user_id (by omega)]
  exact h1

/-- Witness for `c2_at_most_one_reminder`: the pending session 7 scheduled
at 36000 s, scanned at 35400 (exactly 10 minutes ahead) and re-scanned at
35430 and 35460, carries exactly one reminder notification. -/
theorem c2_at_most_one_reminder_witness :
    reminderCount (check_session_reminders exPendingDB 35400) 7 1 = 1 ∧
    reminderCount ([35430, 35460].foldl check_session_reminders
      (check_session_reminders exPendingDB 35400)) 7 1 = 1 :=
  c2_at_most_one_reminder exPendingDB exPendingSession 35400 [35430, 35460]
    (by decide) (by decide) (by decide) (by decide)

end OnMaum
